import Mathlib

/-!
# TPS character movement: saved-move flags, speed modifiers, prediction data

A shallow embedding of `Source/TPS/TPSCharacterMovementComponent.cpp` (with the
two `ATPSCharacter` accessors from `Source/TPS/TPSCharacter.cpp` that it calls).

* C++ `float` is IEEE-754 binary32 with round-to-nearest-even, carried as its
  32-bit pattern (`F32`).
* `uint8` is a natural number reduced `% 256` wherever the C++ stores into one.
* Engine code that the component only calls (`Super::...`, the engine
  enumerators, the engine constructor of the prediction data) is not part of the
  repository sources; each such piece is an explicit parameter.
* Objects reached through pointers live in an explicit heap; `new` appends.
-/

namespace TPS

/-! ## binary32 -/

/-- A C++ `float`, as its IEEE-754 binary32 bit pattern (sign, 8 exponent bits,
23 fraction bits). -/
structure F32 where
  bits : Nat
deriving DecidableEq, Repr

namespace F32

def signBit (x : F32) : Bool := x.bits / 2 ^ 31 % 2 == 1

def expField (x : F32) : Nat := x.bits / 2 ^ 23 % 256

def fracField (x : F32) : Nat := x.bits % 2 ^ 23

def isNaN (x : F32) : Bool := x.expField == 255 && x.fracField != 0

def isInf (x : F32) : Bool := x.expField == 255 && x.fracField == 0

def isZero (x : F32) : Bool := x.expField == 0 && x.fracField == 0

/-- The pattern with the given sign and the given 31 magnitude bits. -/
def signed (neg : Bool) (mag : Nat) : F32 := ⟨(if neg then 2 ^ 31 else 0) + mag⟩

/-- The default quiet NaN. NaN payloads are not tracked: every NaN result is this one. -/
def qNaN : F32 := ⟨0x7FC00000⟩

def infinity (neg : Bool) : F32 := signed neg 0x7F800000

/-- Number of binary digits of `n` (`fuel` bounds the recursion; `n` itself is enough). -/
def bitLen : Nat → Nat → Nat
  | 0, _ => 0
  | fuel + 1, n => if n == 0 then 0 else bitLen fuel (n / 2) + 1

/-- Round-to-nearest, ties-to-even, of the positive rational
`num * 2^up / (den * 2^down)` (`den > 0`) to binary32, with the sign `neg`.
`E` is the biased exponent of the result (0 for subnormals), `q` the truncated
24-bit significand, `r` the remainder that decides the rounding; a carry out of
the significand moves into the exponent by plain addition, and a magnitude that
reaches the pattern of infinity overflows to infinity. -/
def round (neg : Bool) (num den up down : Nat) : F32 :=
  if num == 0 then signed neg 0 else
  let E0 := bitLen num num + up + 126 - (bitLen den den + down)
  let E := if E0 != 0 && decide (num <<< (149 + up) < den <<< (E0 + 23 + down))
    then E0 - 1 else E0
  let N := num <<< (149 + up)
  let D := den <<< (E + down)
  let q := N / D
  let r := N % D
  let q1 := if decide (D < 2 * r) || (2 * r == D && q % 2 == 1) then q + 1 else q
  let mag := E * 2 ^ 23 + q1
  if decide (0x7F800000 ≤ mag) then infinity neg else signed neg mag

/-- A non-negative decimal literal `digits / 10^places` written with the `f`
suffix, e.g. `1.4f` is `ofDecimal 14 1` and `92.f` is `ofDecimal 92 0`. -/
def ofDecimal (digits places : Nat) : F32 := round false digits (10 ^ places) 0 0

/-- The literal `0.0f`. -/
def zero : F32 := ofDecimal 0 1

/-- Significand of a finite value: `|x| = sig x * 2^(ex x) / 2^149`. -/
def sig (x : F32) : Nat := if x.expField == 0 then x.fracField else 2 ^ 23 + x.fracField

/-- Exponent of a finite value above the smallest subnormal exponent. -/
def ex (x : F32) : Nat := if x.expField == 0 then 0 else x.expField - 1

/-- The C++ `a * b` on `float`: the exact product, rounded once. -/
def mul (a b : F32) : F32 :=
  let neg := a.signBit != b.signBit
  if a.isNaN || b.isNaN then qNaN
  else if a.isInf then (if b.isZero then qNaN else infinity neg)
  else if b.isInf then (if a.isZero then qNaN else infinity neg)
  else round neg (a.sig * b.sig) 1 (a.ex + b.ex) 298

/-- The C++ `a < b` on `float`: false when either side is a NaN, and the two
zeros compare equal. -/
def lt (a b : F32) : Bool :=
  let key (x : F32) : Int :=
    if x.signBit then -((x.bits % 2 ^ 31 : Nat) : Int) else ((x.bits % 2 ^ 31 : Nat) : Int)
  !a.isNaN && !b.isNaN && decide (key a < key b)

/-- The C++ `a > b` on `float`. -/
def gt (a b : F32) : Bool := lt b a

end F32

/-! ## The owning character (`TPSCharacter.cpp`, `CharacterAttributeSet.h`) -/

/-- Engine struct `FGameplayAttributeData`: the value of one attribute. -/
structure FGameplayAttributeData where
  BaseValue : F32
  CurrentValue : F32
deriving DecidableEq, Repr

/-- `UCharacterAttributeSet` (`CharacterAttributeSet.h`): the `Health` attribute. -/
structure UCharacterAttributeSet where
  Health : FGameplayAttributeData
deriving DecidableEq, Repr

/-- `ATTRIBUTE_ACCESSORS(UCharacterAttributeSet, Health)`: the value getter. -/
def UCharacterAttributeSet.GetHealth (s : UCharacterAttributeSet) : F32 :=
  s.Health.CurrentValue

/-- `ATPSCharacter`, as far as the movement component reads it: the weak pointer
`AttributeSet` (`none` when it is not valid). -/
structure ATPSCharacter where
  AttributeSet : Option UCharacterAttributeSet
deriving DecidableEq, Repr

/-- `ATPSCharacter::GetHealth` (`TPSCharacter.cpp`). -/
def ATPSCharacter.GetHealth (c : ATPSCharacter) : F32 :=
  match c.AttributeSet with
  | some s => s.GetHealth
  | none => F32.zero

/-- `ATPSCharacter::IsAlive` (`TPSCharacter.cpp`): `GetHealth() > 0.0f`. -/
def ATPSCharacter.IsAlive (c : ATPSCharacter) : Bool :=
  F32.gt c.GetHealth F32.zero

/-- What a component's `GetOwner()` can point to: an `ATPSCharacter`, or an
actor of some other class. -/
inductive AActor where
  | TPSCharacter (c : ATPSCharacter)
  | Other
deriving DecidableEq, Repr

/-- `Cast<ATPSCharacter>(...)`: null for a null pointer and for an actor of
another class. -/
def Cast_ATPSCharacter : Option AActor → Option ATPSCharacter
  | some (AActor.TPSCharacter c) => some c
  | _ => none

/-! ## The movement component -/

/-- The engine base class `UCharacterMovementComponent`, as far as this
component reads or writes it. `MaxSpeed` is the value that the engine's own
`GetMaxSpeed()` returns for the current movement mode; `PawnOwner` is `true`
when the pointer is not null; `ClientPredictionData` is a heap address, `none`
for the null pointer. -/
structure UCharacterMovementComponent where
  Owner : Option AActor
  PawnOwner : Bool
  MaxSpeed : F32
  ClientPredictionData : Option Nat
deriving DecidableEq, Repr

def UCharacterMovementComponent.GetOwner (c : UCharacterMovementComponent) : Option AActor :=
  c.Owner

/-- `Super::GetMaxSpeed()`. -/
def UCharacterMovementComponent.GetMaxSpeed (c : UCharacterMovementComponent) : F32 :=
  c.MaxSpeed

/-- `UTPSCharacterMovementComponent`: the base-class part and the four members
the source file uses. -/
structure UTPSCharacterMovementComponent where
  Super : UCharacterMovementComponent
  SprintSpeedMultiplier : F32
  ADSSpeedMultiplier : F32
  RequestToStartSprinting : Bool
  RequestToStartADS : Bool
deriving DecidableEq, Repr

/-- The enumerators of the engine's `FSavedMove_Character::CompressedFlags` that
the source names. Their values are declared in an engine header, so they are
parameters here. -/
structure CompressedFlags where
  FLAG_Custom_0 : Nat
  FLAG_Custom_1 : Nat
deriving DecidableEq, Repr

/-- The two enumerators are two different single bits of a byte. -/
def CompressedFlags.Valid (K : CompressedFlags) : Prop :=
  K.FLAG_Custom_0 ∈ [1, 2, 4, 8, 16, 32, 64, 128] ∧
  K.FLAG_Custom_1 ∈ [1, 2, 4, 8, 16, 32, 64, 128] ∧
  K.FLAG_Custom_0 ≠ K.FLAG_Custom_1

instance (K : CompressedFlags) : Decidable K.Valid := by
  unfold CompressedFlags.Valid; infer_instance

/-- The values the engine header gives the two enumerators (`0x10`, `0x20`). -/
def engineFlags : CompressedFlags := ⟨0x10, 0x20⟩

namespace UTPSCharacterMovementComponent

/-- The constructor body, applied to the object as the engine allocated it. -/
def ctor (obj : UTPSCharacterMovementComponent) : UTPSCharacterMovementComponent :=
  { obj with
    SprintSpeedMultiplier := F32.ofDecimal 14 1
    ADSSpeedMultiplier := F32.ofDecimal 5 1 }

/-- `UTPSCharacterMovementComponent::GetMaxSpeed`. (The `UE_LOG` line of the
no-owner branch writes to the log only.) -/
def GetMaxSpeed (c : UTPSCharacterMovementComponent) : F32 :=
  match Cast_ATPSCharacter c.Super.GetOwner with
  | none => c.Super.GetMaxSpeed
  | some Owner =>
    if !Owner.IsAlive then F32.zero
    else if c.RequestToStartSprinting then F32.mul c.Super.GetMaxSpeed c.SprintSpeedMultiplier
    else if c.RequestToStartADS then F32.mul c.Super.GetMaxSpeed c.ADSSpeedMultiplier
    else c.Super.GetMaxSpeed

/-- `UTPSCharacterMovementComponent::UpdateFromCompressedFlags`.
`SuperUpdate` is the engine's `Super::UpdateFromCompressedFlags`, which acts on
the base-class part. -/
def UpdateFromCompressedFlags (K : CompressedFlags)
    (SuperUpdate : UCharacterMovementComponent → Nat → UCharacterMovementComponent)
    (c : UTPSCharacterMovementComponent) (Flags : Nat) : UTPSCharacterMovementComponent :=
  { c with
    Super := SuperUpdate c.Super Flags
    RequestToStartSprinting := (Flags &&& K.FLAG_Custom_0) != 0
    RequestToStartADS := (Flags &&& K.FLAG_Custom_1) != 0 }

def StartSprinting (c : UTPSCharacterMovementComponent) : UTPSCharacterMovementComponent :=
  { c with RequestToStartSprinting := true }

def StopSprinting (c : UTPSCharacterMovementComponent) : UTPSCharacterMovementComponent :=
  { c with RequestToStartSprinting := false }

def StartAimDownSights (c : UTPSCharacterMovementComponent) : UTPSCharacterMovementComponent :=
  { c with RequestToStartADS := true }

def StopAimDownSights (c : UTPSCharacterMovementComponent) : UTPSCharacterMovementComponent :=
  { c with RequestToStartADS := false }

end UTPSCharacterMovementComponent

/-- The calls that change the live component's two request flags. -/
inductive ComponentCall where
  | StartSprinting
  | StopSprinting
  | StartAimDownSights
  | StopAimDownSights
  | UpdateFromCompressedFlags (Flags : Nat)
deriving DecidableEq, Repr

/-- One call, performed on the component. -/
def ComponentCall.run (K : CompressedFlags)
    (SuperUpdate : UCharacterMovementComponent → Nat → UCharacterMovementComponent)
    (c : UTPSCharacterMovementComponent) : ComponentCall → UTPSCharacterMovementComponent
  | ComponentCall.StartSprinting => c.StartSprinting
  | ComponentCall.StopSprinting => c.StopSprinting
  | ComponentCall.StartAimDownSights => c.StartAimDownSights
  | ComponentCall.StopAimDownSights => c.StopAimDownSights
  | ComponentCall.UpdateFromCompressedFlags Flags => c.UpdateFromCompressedFlags K SuperUpdate Flags

/-! ## Saved moves -/

/-- What `Character->GetCharacterMovement()` can point to: a
`UTPSCharacterMovementComponent`, or a movement component of another class. -/
inductive CharacterMovementObject where
  | TPS (c : UTPSCharacterMovementComponent)
  | Other (c : UCharacterMovementComponent)
deriving DecidableEq, Repr

/-- `Cast<UTPSCharacterMovementComponent>(...)`. -/
def Cast_UTPSCharacterMovementComponent :
    Option CharacterMovementObject → Option UTPSCharacterMovementComponent
  | some (CharacterMovementObject.TPS c) => some c
  | _ => none

/-- The engine class `ACharacter`, as far as the saved move reads it. -/
structure ACharacter where
  CharacterMovement : Option CharacterMovementObject
deriving DecidableEq, Repr

def ACharacter.GetCharacterMovement (Character : ACharacter) : Option CharacterMovementObject :=
  Character.CharacterMovement

/-- `UTPSCharacterMovementComponent::FGDSavedMove`. `Super` is the state of the
engine base class `FSavedMove_Character`, of a type `B` this development does
not look into. -/
structure FGDSavedMove (B : Type) where
  Super : B
  SavedRequestToStartSprinting : Bool
  SavedRequestToStartADS : Bool
deriving DecidableEq, Repr

/-- An `FSavedMovePtr` (the engine's `TSharedPtr<FSavedMove_Character>`) as
`CanCombineWith` receives it by reference. `Object` is the saved move the
pointer refers to. The pointer is itself an object in memory, two machine words
wide; `AtHandleSprinting` and `AtHandleADS` are the bits that the memory
starting at the address of the pointer object holds at the offsets at which an
`FGDSavedMove` keeps `SavedRequestToStartSprinting` and
`SavedRequestToStartADS`. These offsets lie behind the whole base class, hence
outside the two words of the pointer object: the two bits belong to whatever is
stored next to it, and the pointed-to move does not determine them. -/
structure FSavedMovePtr (B : Type) where
  Object : FGDSavedMove B
  AtHandleSprinting : Bool
  AtHandleADS : Bool
deriving DecidableEq, Repr

namespace FGDSavedMove

variable {B : Type}

/-- `FGDSavedMove::Clear`. `SuperClear` is the engine's `Super::Clear`. -/
def Clear (SuperClear : B → B) (m : FGDSavedMove B) : FGDSavedMove B :=
  { Super := SuperClear m.Super
    SavedRequestToStartSprinting := false
    SavedRequestToStartADS := false }

/-- `FGDSavedMove::GetCompressedFlags`. `SuperGetCompressedFlags` is the
engine's `Super::GetCompressedFlags`; `Result` is a `uint8`. -/
def GetCompressedFlags (K : CompressedFlags) (SuperGetCompressedFlags : B → Nat)
    (m : FGDSavedMove B) : Nat :=
  let Result := SuperGetCompressedFlags m.Super % 256
  let Result := if m.SavedRequestToStartSprinting
    then (Result ||| K.FLAG_Custom_0) % 256 else Result
  let Result := if m.SavedRequestToStartADS
    then (Result ||| K.FLAG_Custom_1) % 256 else Result
  Result

/-- `FGDSavedMove::CanCombineWith`. The source compares its own flags with
`((FGDSavedMove*)&NewMove)->...`: the operand of the cast is the address of the
pointer object `NewMove`, so the members are read from the memory at that
address. `SuperCanCombineWith` is the engine's `Super::CanCombineWith`, which
receives `NewMove` itself and uses the move it points to; the arguments
`Character` and `MaxDelta`, which the source only passes on, are already
applied to it. -/
def CanCombineWith (SuperCanCombineWith : B → B → Bool)
    (m : FGDSavedMove B) (NewMove : FSavedMovePtr B) : Bool :=
  if m.SavedRequestToStartSprinting != NewMove.AtHandleSprinting then false
  else if m.SavedRequestToStartADS != NewMove.AtHandleADS then false
  else SuperCanCombineWith m.Super NewMove.Object.Super

/-- `FGDSavedMove::SetMoveFor`. `SuperSetMoveFor` is the engine's
`Super::SetMoveFor`; the arguments `InDeltaTime`, `NewAccel` and `ClientData`,
which the source only passes on, are already applied to it. -/
def SetMoveFor (SuperSetMoveFor : B → ACharacter → B)
    (m : FGDSavedMove B) (Character : ACharacter) : FGDSavedMove B :=
  let m1 := { m with Super := SuperSetMoveFor m.Super Character }
  match Cast_UTPSCharacterMovementComponent Character.GetCharacterMovement with
  | some CharacterMovement =>
    { m1 with
      SavedRequestToStartSprinting := CharacterMovement.RequestToStartSprinting
      SavedRequestToStartADS := CharacterMovement.RequestToStartADS }
  | none => m1

/-- `FGDSavedMove::PrepMoveFor`: the base call, then an empty `if` body. -/
def PrepMoveFor (SuperPrepMoveFor : B → ACharacter → B)
    (m : FGDSavedMove B) (Character : ACharacter) : FGDSavedMove B :=
  { m with Super := SuperPrepMoveFor m.Super Character }

end FGDSavedMove

/-- A character together with one saved move taken from it: the state on which
capture and the later calls on the live component act. -/
structure World (B : Type) where
  Character : ACharacter
  Move : FGDSavedMove B

namespace World

variable {B : Type}

/-- The saved move captures the character's current state. -/
def capture (SuperSetMoveFor : B → ACharacter → B) (w : World B) : World B :=
  { w with Move := w.Move.SetMoveFor SuperSetMoveFor w.Character }

/-- One call on the character's live movement component. -/
def step (K : CompressedFlags)
    (SuperUpdate : UCharacterMovementComponent → Nat → UCharacterMovementComponent)
    (w : World B) (call : ComponentCall) : World B :=
  match w.Character.CharacterMovement with
  | some (CharacterMovementObject.TPS c) =>
    { w with Character :=
        { w.Character with
          CharacterMovement := some (CharacterMovementObject.TPS (call.run K SuperUpdate c)) } }
  | _ => w

/-- A sequence of calls on the live component, in order. -/
def steps (K : CompressedFlags)
    (SuperUpdate : UCharacterMovementComponent → Nat → UCharacterMovementComponent)
    (w : World B) (calls : List ComponentCall) : World B :=
  calls.foldl (step K SuperUpdate) w

end World

/-! ## Client prediction data -/

/-- The engine class `FNetworkPredictionData_Client_Character`: the two
smoothing distances that the source sets. `FGDNetworkPredictionData_Client`
derives from it without adding members. -/
structure FNetworkPredictionData_Client_Character where
  MaxSmoothNetUpdateDist : F32
  NoSmoothNetUpdateDist : F32
deriving DecidableEq, Repr

/-- The objects created with `new`, in order of creation; the address of an
object is its position. Nothing in the source deletes one. -/
abbrev Heap := List FNetworkPredictionData_Client_Character

/-- A store through a pointer: the object at address `p` is replaced by `f` of it. -/
def Heap.write (h : Heap) (p : Nat) (f : FNetworkPredictionData_Client_Character →
    FNetworkPredictionData_Client_Character) : Heap :=
  match h[p]? with
  | some o => h.set p (f o)
  | none => h

/-- `FGDNetworkPredictionData_Client::FGDNetworkPredictionData_Client`: the
engine constructor `Super(ClientMovement)` and an empty body. -/
def FGDNetworkPredictionData_Client.ctor
    (SuperCtor : UCharacterMovementComponent → FNetworkPredictionData_Client_Character)
    (ClientMovement : UCharacterMovementComponent) : FNetworkPredictionData_Client_Character :=
  SuperCtor ClientMovement

/-- `UTPSCharacterMovementComponent::GetPredictionData_Client`. The result is
`none` when `check(PawnOwner != NULL)` fails, which stops the program;
otherwise the heap and the component after the call, and the returned pointer. -/
def UTPSCharacterMovementComponent.GetPredictionData_Client
    (SuperCtor : UCharacterMovementComponent → FNetworkPredictionData_Client_Character)
    (h : Heap) (c : UTPSCharacterMovementComponent) :
    Option (Heap × UTPSCharacterMovementComponent × Nat) :=
  if !c.Super.PawnOwner then none
  else
    match c.Super.ClientPredictionData with
    | some p => some (h, c, p)
    | none =>
      let p := h.length
      let h1 := h ++ [FGDNetworkPredictionData_Client.ctor SuperCtor c.Super]
      let c1 := { c with Super := { c.Super with ClientPredictionData := some p } }
      let h2 := h1.write p (fun o => { o with MaxSmoothNetUpdateDist := F32.ofDecimal 92 0 })
      let h3 := h2.write p (fun o => { o with NoSmoothNetUpdateDist := F32.ofDecimal 140 0 })
      some (h3, c1, p)

/-- `n` calls of `GetPredictionData_Client` in a row: the final heap and
component and the pointers returned, in order; `none` as soon as one call fails. -/
def UTPSCharacterMovementComponent.GetPredictionData_Client_times
    (SuperCtor : UCharacterMovementComponent → FNetworkPredictionData_Client_Character) :
    Nat → Heap → UTPSCharacterMovementComponent →
      Option (Heap × UTPSCharacterMovementComponent × List Nat)
  | 0, h, c => some (h, c, [])
  | n + 1, h, c =>
    match c.GetPredictionData_Client SuperCtor h with
    | none => none
    | some (h1, c1, p) =>
      match GetPredictionData_Client_times SuperCtor n h1 c1 with
      | none => none
      | some (h2, c2, ps) => some (h2, c2, p :: ps)

/-- The same function with the moment of failure made explicit.
`check(PawnOwner != NULL)` is the engine's assertion macro: a false condition
is fatal. It is the first statement, so the error result carries the heap and
the component as they are when the program stops; the success result is the
heap and the component after the call, and the returned pointer. -/
def UTPSCharacterMovementComponent.GetPredictionData_Client_run
    (SuperCtor : UCharacterMovementComponent → FNetworkPredictionData_Client_Character)
    (h : Heap) (c : UTPSCharacterMovementComponent) :
    Except (Heap × UTPSCharacterMovementComponent)
      (Heap × UTPSCharacterMovementComponent × Nat) :=
  if !c.Super.PawnOwner then Except.error (h, c)
  else
    match c.Super.ClientPredictionData with
    | some p => Except.ok (h, c, p)
    | none =>
      let p := h.length
      let h1 := h ++ [FGDNetworkPredictionData_Client.ctor SuperCtor c.Super]
      let c1 := { c with Super := { c.Super with ClientPredictionData := some p } }
      let h2 := h1.write p (fun o => { o with MaxSmoothNetUpdateDist := F32.ofDecimal 92 0 })
      let h3 := h2.write p (fun o => { o with NoSmoothNetUpdateDist := F32.ofDecimal 140 0 })
      Except.ok (h3, c1, p)

/-- Modelled from the spec: the component object as it is when the constructor
body starts. The members are declared in `TPSCharacterMovementComponent.h`,
which is not among the sources, and the storage comes from the engine's object
allocation; the constructor body itself assigns only the two multipliers. The
spec says the two flags are "reset to `false/false` at component
construction". The base-class part and the values the multipliers hold before
the body runs are arbitrary. -/
def UTPSCharacterMovementComponent.allocated (Super : UCharacterMovementComponent)
    (SprintSpeedMultiplier ADSSpeedMultiplier : F32) : UTPSCharacterMovementComponent :=
  { Super := Super
    SprintSpeedMultiplier := SprintSpeedMultiplier
    ADSSpeedMultiplier := ADSSpeedMultiplier
    RequestToStartSprinting := false
    RequestToStartADS := false }

/-! ## Checks of the binary32 model -/

/-- The bit patterns of the `float` literals that occur in the source and in
the examples below. -/
theorem F32.literal_bits :
    (F32.ofDecimal 0 1).bits = 0x00000000 ∧ (F32.ofDecimal 5 1).bits = 0x3F000000 ∧
    (F32.ofDecimal 14 1).bits = 0x3FB33333 ∧ (F32.ofDecimal 92 0).bits = 0x42B80000 ∧
    (F32.ofDecimal 140 0).bits = 0x430C0000 ∧ (F32.ofDecimal 250 0).bits = 0x437A0000 ∧
    (F32.ofDecimal 500 0).bits = 0x43FA0000 ∧ (F32.ofDecimal 700 0).bits = 0x442F0000 := by
  decide

/-- Products at the edges of the format: a tie between two subnormals goes to
the even one, the largest finite value overflows to infinity, infinity times
zero and any product with a NaN are NaN, and signs multiply. -/
theorem F32.mul_edge_cases :
    F32.mul ⟨0x00000003⟩ ⟨0x3F000000⟩ = ⟨0x00000002⟩ ∧
    F32.mul ⟨0x00000001⟩ ⟨0x3F000000⟩ = ⟨0x00000000⟩ ∧
    F32.mul ⟨0x7F7FFFFF⟩ ⟨0x3F800001⟩ = ⟨0x7F800000⟩ ∧
    F32.mul ⟨0x7F800000⟩ ⟨0x00000000⟩ = F32.qNaN ∧
    F32.mul ⟨0x7FC00000⟩ ⟨0x3F800000⟩ = F32.qNaN ∧
    F32.mul ⟨0xBFC00000⟩ ⟨0x40490FDB⟩ = ⟨0xC096CBE4⟩ ∧
    F32.mul ⟨0x3F800001⟩ ⟨0x3F800001⟩ = ⟨0x3F800002⟩ := by
  decide

/-- Comparison with zero: positive values are greater, the zeros, negative
values and NaN are not. -/
theorem F32.gt_zero_cases :
    F32.gt (F32.ofDecimal 100 0) F32.zero = true ∧ F32.gt ⟨0x00000001⟩ F32.zero = true ∧
    F32.gt F32.zero F32.zero = false ∧ F32.gt ⟨0x80000000⟩ F32.zero = false ∧
    F32.gt ⟨0xBF800000⟩ F32.zero = false ∧ F32.gt F32.qNaN F32.zero = false := by
  decide

/-! ## Lemmas on the flag byte -/

theorem CompressedFlags.Valid.facts {K : CompressedFlags} (hK : K.Valid) :
    K.FLAG_Custom_0 ≠ 0 ∧ K.FLAG_Custom_1 ≠ 0 ∧ K.FLAG_Custom_0 < 256 ∧
      K.FLAG_Custom_1 < 256 ∧ K.FLAG_Custom_0 &&& K.FLAG_Custom_1 = 0 := by
  obtain ⟨a, b⟩ := K
  obtain ⟨h0, h1, hne⟩ := hK
  simp only [List.mem_cons, List.mem_singleton, List.not_mem_nil, or_false] at h0 h1
  simp only [ne_eq] at hne ⊢
  rcases h0 with rfl | rfl | rfl | rfl | rfl | rfl | rfl | rfl <;>
    rcases h1 with rfl | rfl | rfl | rfl | rfl | rfl | rfl | rfl <;>
    first
      | exact absurd rfl hne
      | decide

theorem or_byte_lt {x y : Nat} (hx : x < 256) (hy : y < 256) : x ||| y < 256 :=
  Nat.or_lt_two_pow (n := 8) hx hy

/-- On a byte-valued base result and byte-valued enumerators no store of
`GetCompressedFlags` truncates: the result is the plain bitwise OR. -/
theorem FGDSavedMove.GetCompressedFlags_eq_or {B : Type} (K : CompressedFlags)
    (SuperGetCompressedFlags : B → Nat) (m : FGDSavedMove B)
    (hb : SuperGetCompressedFlags m.Super < 256)
    (h0 : K.FLAG_Custom_0 < 256) (h1 : K.FLAG_Custom_1 < 256) :
    m.GetCompressedFlags K SuperGetCompressedFlags =
      SuperGetCompressedFlags m.Super
        ||| (if m.SavedRequestToStartSprinting then K.FLAG_Custom_0 else 0)
        ||| (if m.SavedRequestToStartADS then K.FLAG_Custom_1 else 0) := by
  unfold FGDSavedMove.GetCompressedFlags
  rw [Nat.mod_eq_of_lt hb]
  cases m.SavedRequestToStartSprinting <;> cases m.SavedRequestToStartADS <;>
    simp only [if_true, if_false, Bool.false_eq_true, Nat.or_zero]
  · exact Nat.mod_eq_of_lt (or_byte_lt hb h1)
  · exact Nat.mod_eq_of_lt (or_byte_lt hb h0)
  · rw [Nat.mod_eq_of_lt (or_byte_lt hb h0)]
    exact Nat.mod_eq_of_lt (or_byte_lt (or_byte_lt hb h0) h1)

theorem and_or_right (x y z : Nat) : (x ||| y) &&& z = (x &&& z) ||| (y &&& z) := by
  apply Nat.eq_of_testBit_eq
  intro i
  simp [Bool.and_or_distrib_right]

/-- Masking the OR of a base byte and the two optional enumerators with a mask
that the base byte and the second enumerator do not meet leaves the first
enumerator's contribution. -/
theorem and_of_or_or (b x y c : Nat) (hb : b &&& c = 0) (hy : y &&& c = 0) :
    (b ||| x ||| y) &&& c = x &&& c := by
  rw [and_or_right, and_or_right, hb, hy, Nat.zero_or, Nat.or_zero]

theorem and_of_or_or_right (b x y c : Nat) (hb : b &&& c = 0) (hx : x &&& c = 0) :
    (b ||| x ||| y) &&& c = y &&& c := by
  rw [and_or_right, and_or_right, hb, hx, Nat.zero_or, Nat.zero_or]

/-! ## Claims -/

/-- C1. Round trip of the two custom bits: for every saved move (any saved
sprint flag, any saved ADS flag) and every base byte that carries only bits of
the base framework (the two custom bits are clear in it, as the framework's
bits are disjoint from the custom ones), `UpdateFromCompressedFlags` applied to
the byte that `GetCompressedFlags` produces sets `RequestToStartSprinting` to
the saved sprint flag and `RequestToStartADS` to the saved ADS flag, whatever
the component held before and whatever the other bits of the base byte are. -/
theorem C1_flags_round_trip {B : Type} (K : CompressedFlags) (hK : K.Valid)
    (SuperGetCompressedFlags : B → Nat)
    (SuperUpdate : UCharacterMovementComponent → Nat → UCharacterMovementComponent)
    (m : FGDSavedMove B) (c : UTPSCharacterMovementComponent)
    (hb : SuperGetCompressedFlags m.Super < 256)
    (hb0 : SuperGetCompressedFlags m.Super &&& K.FLAG_Custom_0 = 0)
    (hb1 : SuperGetCompressedFlags m.Super &&& K.FLAG_Custom_1 = 0) :
    (c.UpdateFromCompressedFlags K SuperUpdate
        (m.GetCompressedFlags K SuperGetCompressedFlags)).RequestToStartSprinting
      = m.SavedRequestToStartSprinting ∧
    (c.UpdateFromCompressedFlags K SuperUpdate
        (m.GetCompressedFlags K SuperGetCompressedFlags)).RequestToStartADS
      = m.SavedRequestToStartADS := by
  obtain ⟨n0, n1, l0, l1, hd⟩ := hK.facts
  have hd' : K.FLAG_Custom_1 &&& K.FLAG_Custom_0 = 0 := by rw [Nat.and_comm]; exact hd
  rw [FGDSavedMove.GetCompressedFlags_eq_or K SuperGetCompressedFlags m hb l0 l1]
  unfold UTPSCharacterMovementComponent.UpdateFromCompressedFlags
  constructor
  · show ((_ &&& K.FLAG_Custom_0) != 0) = _
    rw [and_of_or_or _ _ _ _ hb0
      (by cases m.SavedRequestToStartADS <;> simp [hd'])]
    cases m.SavedRequestToStartSprinting <;> simp [n0]
  · show ((_ &&& K.FLAG_Custom_1) != 0) = _
    rw [and_of_or_or_right _ _ _ _ hb1
      (by cases m.SavedRequestToStartSprinting <;> simp [hd])]
    cases m.SavedRequestToStartADS <;> simp [n1]

/-- Witness for C1: the engine's enumerator values, a base byte with both
framework bits set, sprint saved, ADS not saved. -/
theorem C1_flags_round_trip_witness :
    engineFlags.Valid ∧
    ((UTPSCharacterMovementComponent.mk ⟨none, true, F32.zero, none⟩ F32.zero F32.zero
          false true).UpdateFromCompressedFlags engineFlags (fun s _ => s)
        ((FGDSavedMove.mk 3 true false).GetCompressedFlags engineFlags
          (fun b => b))).RequestToStartSprinting = true ∧
    ((UTPSCharacterMovementComponent.mk ⟨none, true, F32.zero, none⟩ F32.zero F32.zero
          false true).UpdateFromCompressedFlags engineFlags (fun s _ => s)
        ((FGDSavedMove.mk 3 true false).GetCompressedFlags engineFlags
          (fun b => b))).RequestToStartADS = false :=
  ⟨by decide,
   C1_flags_round_trip engineFlags (by decide) (fun b => b) (fun s _ => s)
     (FGDSavedMove.mk 3 true false)
     (UTPSCharacterMovementComponent.mk ⟨none, true, F32.zero, none⟩ F32.zero F32.zero
       false true)
     (by decide) (by decide) (by decide)⟩

/-- C2. A dead owner stops all movement: whenever the component's owner is an
`ATPSCharacter` that is not alive, `GetMaxSpeed` returns `0.0f`, for every base
max speed, both multipliers and both request flags (the component `c` is
arbitrary); the alive check comes before any modifier. -/
theorem C2_dead_owner_speed_zero (c : UTPSCharacterMovementComponent) (Owner : ATPSCharacter)
    (hOwner : Cast_ATPSCharacter c.Super.GetOwner = some Owner)
    (hDead : Owner.IsAlive = false) :
    c.GetMaxSpeed = F32.zero ∧ F32.zero.bits = 0 := by
  refine ⟨?_, by decide⟩
  unfold UTPSCharacterMovementComponent.GetMaxSpeed
  rw [hOwner]
  simp [hDead]

/-- Witness for C2: base speed 500, default multipliers, sprint requested, an
owner whose health is `0.0f`. -/
theorem C2_dead_owner_speed_zero_witness :
    (UTPSCharacterMovementComponent.mk
        ⟨some (AActor.TPSCharacter ⟨some ⟨⟨F32.zero, F32.zero⟩⟩⟩), true, F32.ofDecimal 500 0, none⟩
        (F32.ofDecimal 14 1) (F32.ofDecimal 5 1) true false).GetMaxSpeed = F32.zero ∧
      F32.zero.bits = 0 :=
  C2_dead_owner_speed_zero
    (UTPSCharacterMovementComponent.mk
      ⟨some (AActor.TPSCharacter ⟨some ⟨⟨F32.zero, F32.zero⟩⟩⟩), true, F32.ofDecimal 500 0, none⟩
      (F32.ofDecimal 14 1) (F32.ofDecimal 5 1) true false)
    ⟨some ⟨⟨F32.zero, F32.zero⟩⟩⟩ (by decide) (by decide)

/-- C3. Sprint comes before ADS: with an owner that is an alive `ATPSCharacter`
and the sprint flag set, `GetMaxSpeed` returns the base max speed times
`SprintSpeedMultiplier`, for every base max speed, every ADS flag and every ADS
multiplier. With base speed `500.f` and the constructor's multiplier `1.4f`
the result is `700.f`; with the constructor's ADS multiplier `0.5f` as well,
that result is neither base times the ADS multiplier nor the product with both
multipliers. -/
theorem C3_sprint_before_ads (c : UTPSCharacterMovementComponent) (Owner : ATPSCharacter)
    (hOwner : Cast_ATPSCharacter c.Super.GetOwner = some Owner)
    (hAlive : Owner.IsAlive = true)
    (hSprint : c.RequestToStartSprinting = true) :
    c.GetMaxSpeed = F32.mul c.Super.GetMaxSpeed c.SprintSpeedMultiplier ∧
    (c.Super.GetMaxSpeed = F32.ofDecimal 500 0 →
      c.SprintSpeedMultiplier = c.ctor.SprintSpeedMultiplier →
      c.GetMaxSpeed = F32.ofDecimal 700 0 ∧
      (c.ADSSpeedMultiplier = c.ctor.ADSSpeedMultiplier →
        c.GetMaxSpeed ≠ F32.mul c.Super.GetMaxSpeed c.ADSSpeedMultiplier ∧
        c.GetMaxSpeed ≠
          F32.mul (F32.mul c.Super.GetMaxSpeed c.SprintSpeedMultiplier) c.ADSSpeedMultiplier)) := by
  have key : c.GetMaxSpeed = F32.mul c.Super.GetMaxSpeed c.SprintSpeedMultiplier := by
    unfold UTPSCharacterMovementComponent.GetMaxSpeed
    rw [hOwner]
    simp [hAlive, hSprint]
  refine ⟨key, ?_⟩
  intro hBase hMul
  have hMul' : c.SprintSpeedMultiplier = F32.ofDecimal 14 1 := hMul
  rw [key, hBase, hMul']
  refine ⟨by decide, ?_⟩
  intro hAds
  have hAds' : c.ADSSpeedMultiplier = F32.ofDecimal 5 1 := hAds
  rw [hAds']
  exact ⟨by decide, by decide⟩

/-- Witness for C3: base speed 500, default multipliers, both flags set, an
owner with health 100. -/
theorem C3_sprint_before_ads_witness :
    (UTPSCharacterMovementComponent.mk
        ⟨some (AActor.TPSCharacter ⟨some ⟨⟨F32.ofDecimal 100 0, F32.ofDecimal 100 0⟩⟩⟩), true,
          F32.ofDecimal 500 0, none⟩
        (F32.ofDecimal 14 1) (F32.ofDecimal 5 1) true true).GetMaxSpeed = F32.ofDecimal 700 0 :=
  ((C3_sprint_before_ads
    (UTPSCharacterMovementComponent.mk
      ⟨some (AActor.TPSCharacter ⟨some ⟨⟨F32.ofDecimal 100 0, F32.ofDecimal 100 0⟩⟩⟩), true,
        F32.ofDecimal 500 0, none⟩
      (F32.ofDecimal 14 1) (F32.ofDecimal 5 1) true true)
    ⟨some ⟨⟨F32.ofDecimal 100 0, F32.ofDecimal 100 0⟩⟩⟩ (by decide) (by decide) rfl).2 rfl rfl).1

/-- C4. Without sprint: with an owner that is an alive `ATPSCharacter` and the
sprint flag clear, `GetMaxSpeed` returns the base max speed times
`ADSSpeedMultiplier` when the ADS flag is set, and the base max speed itself
when it is clear, for every base max speed. With base speed `500.f` and the
constructor's ADS multiplier `0.5f` the ADS result is `250.f`. -/
theorem C4_ads_or_base_speed (c : UTPSCharacterMovementComponent) (Owner : ATPSCharacter)
    (hOwner : Cast_ATPSCharacter c.Super.GetOwner = some Owner)
    (hAlive : Owner.IsAlive = true)
    (hSprint : c.RequestToStartSprinting = false) :
    (c.RequestToStartADS = true →
      c.GetMaxSpeed = F32.mul c.Super.GetMaxSpeed c.ADSSpeedMultiplier) ∧
    (c.RequestToStartADS = false → c.GetMaxSpeed = c.Super.GetMaxSpeed) ∧
    (c.RequestToStartADS = true → c.Super.GetMaxSpeed = F32.ofDecimal 500 0 →
      c.ADSSpeedMultiplier = c.ctor.ADSSpeedMultiplier →
      c.GetMaxSpeed = F32.ofDecimal 250 0) := by
  have hAds : c.RequestToStartADS = true →
      c.GetMaxSpeed = F32.mul c.Super.GetMaxSpeed c.ADSSpeedMultiplier := by
    intro h
    unfold UTPSCharacterMovementComponent.GetMaxSpeed
    rw [hOwner]
    simp [hAlive, hSprint, h]
  refine ⟨hAds, ?_, ?_⟩
  · intro h
    unfold UTPSCharacterMovementComponent.GetMaxSpeed
    rw [hOwner]
    simp [hAlive, hSprint, h]
  · intro h hBase hMul
    have hMul' : c.ADSSpeedMultiplier = F32.ofDecimal 5 1 := hMul
    rw [hAds h, hBase, hMul']
    decide

/-- Witness for C4: base speed 500, default multipliers, only the ADS flag
set, an owner with health 100. -/
theorem C4_ads_or_base_speed_witness :
    (UTPSCharacterMovementComponent.mk
        ⟨some (AActor.TPSCharacter ⟨some ⟨⟨F32.ofDecimal 100 0, F32.ofDecimal 100 0⟩⟩⟩), true,
          F32.ofDecimal 500 0, none⟩
        (F32.ofDecimal 14 1) (F32.ofDecimal 5 1) false true).GetMaxSpeed = F32.ofDecimal 250 0 :=
  (C4_ads_or_base_speed
    (UTPSCharacterMovementComponent.mk
      ⟨some (AActor.TPSCharacter ⟨some ⟨⟨F32.ofDecimal 100 0, F32.ofDecimal 100 0⟩⟩⟩), true,
        F32.ofDecimal 500 0, none⟩
      (F32.ofDecimal 14 1) (F32.ofDecimal 5 1) false true)
    ⟨some ⟨⟨F32.ofDecimal 100 0, F32.ofDecimal 100 0⟩⟩⟩ (by decide) (by decide) rfl).2.2
      rfl rfl rfl

/-- What `CanCombineWith` computes: agreement of the receiver's flags with the
two bits in the memory at the pointer object, and the base predicate. -/
theorem FGDSavedMove.CanCombineWith_eq_true_iff {B : Type} (SuperCanCombineWith : B → B → Bool)
    (m : FGDSavedMove B) (NewMove : FSavedMovePtr B) :
    m.CanCombineWith SuperCanCombineWith NewMove = true ↔
      m.SavedRequestToStartSprinting = NewMove.AtHandleSprinting ∧
      m.SavedRequestToStartADS = NewMove.AtHandleADS ∧
      SuperCanCombineWith m.Super NewMove.Object.Super = true := by
  unfold FGDSavedMove.CanCombineWith
  cases m.SavedRequestToStartSprinting <;> cases NewMove.AtHandleSprinting <;>
    cases m.SavedRequestToStartADS <;> cases NewMove.AtHandleADS <;> simp

/-- C5, the code at two inputs. First: two moves with identical flags
(sprint set, ADS clear) that the base predicate accepts, while the memory at
the pointer object has a clear bit at the sprint offset: `CanCombineWith`
returns `false`, where the merge policy says `true`. Second: a sprinting move
and a non-sprinting move, while that memory has a set bit at the sprint
offset: `CanCombineWith` returns `true`, where the merge policy says `false`. -/
theorem C5_CanCombineWith_compares_pointer_memory :
    (FGDSavedMove.mk () true false).CanCombineWith (fun _ _ => true)
        ⟨FGDSavedMove.mk () true false, false, false⟩ = false ∧
    (FGDSavedMove.mk () true false).CanCombineWith (fun _ _ => true)
        ⟨FGDSavedMove.mk () false false, true, false⟩ = true := by
  decide

theorem World.steps_Move {B : Type} (K : CompressedFlags)
    (SuperUpdate : UCharacterMovementComponent → Nat → UCharacterMovementComponent)
    (calls : List ComponentCall) (w : World B) :
    (w.steps K SuperUpdate calls).Move = w.Move := by
  induction calls generalizing w with
  | nil => rfl
  | cons call rest ih =>
    have hstep : (w.step K SuperUpdate call).Move = w.Move := by
      unfold World.step
      split <;> rfl
    show (World.steps K SuperUpdate (w.step K SuperUpdate call) rest).Move = w.Move
    rw [ih, hstep]

/-- C6. Snapshot capture: when the character's movement component is a
`UTPSCharacterMovementComponent`, `SetMoveFor` leaves the saved move's sprint
and ADS flags equal to the component's `RequestToStartSprinting` and
`RequestToStartADS` at that moment, and after any sequence of `StartSprinting`,
`StopSprinting`, `StartAimDownSights`, `StopAimDownSights` and
`UpdateFromCompressedFlags` calls on the live component the saved move is the
same move, with the same two flags. -/
theorem C6_snapshot_capture {B : Type} (K : CompressedFlags)
    (SuperUpdate : UCharacterMovementComponent → Nat → UCharacterMovementComponent)
    (SuperSetMoveFor : B → ACharacter → B)
    (w : World B) (CharacterMovement : UTPSCharacterMovementComponent)
    (hComp : w.Character.GetCharacterMovement =
      some (CharacterMovementObject.TPS CharacterMovement))
    (calls : List ComponentCall) :
    (w.capture SuperSetMoveFor).Move.SavedRequestToStartSprinting
      = CharacterMovement.RequestToStartSprinting ∧
    (w.capture SuperSetMoveFor).Move.SavedRequestToStartADS
      = CharacterMovement.RequestToStartADS ∧
    ((w.capture SuperSetMoveFor).steps K SuperUpdate calls).Move
      = (w.capture SuperSetMoveFor).Move ∧
    ((w.capture SuperSetMoveFor).steps K SuperUpdate calls).Move.SavedRequestToStartSprinting
      = CharacterMovement.RequestToStartSprinting ∧
    ((w.capture SuperSetMoveFor).steps K SuperUpdate calls).Move.SavedRequestToStartADS
      = CharacterMovement.RequestToStartADS := by
  have h1 : (w.capture SuperSetMoveFor).Move.SavedRequestToStartSprinting
      = CharacterMovement.RequestToStartSprinting := by
    simp only [World.capture, FGDSavedMove.SetMoveFor, hComp,
      Cast_UTPSCharacterMovementComponent]
  have h2 : (w.capture SuperSetMoveFor).Move.SavedRequestToStartADS
      = CharacterMovement.RequestToStartADS := by
    simp only [World.capture, FGDSavedMove.SetMoveFor, hComp,
      Cast_UTPSCharacterMovementComponent]
  have h3 := World.steps_Move K SuperUpdate calls (w.capture SuperSetMoveFor)
  exact ⟨h1, h2, h3, by rw [h3]; exact h1, by rw [h3]; exact h2⟩

/-- Witness for C6: a sprinting character is captured; the live component then
stops sprinting, starts aiming and receives the flag byte `0x20`. The saved
move still says sprint set and ADS clear, while the live component now says
the opposite. -/
theorem C6_snapshot_capture_witness :
    (((World.mk (B := Unit)
          ⟨some (CharacterMovementObject.TPS
            ⟨⟨none, true, F32.ofDecimal 500 0, none⟩, F32.ofDecimal 14 1, F32.ofDecimal 5 1,
              true, false⟩)⟩
          ⟨(), false, false⟩).capture (fun b _ => b)).steps engineFlags (fun s _ => s)
        [ComponentCall.StopSprinting, ComponentCall.StartAimDownSights,
          ComponentCall.UpdateFromCompressedFlags 0x20]).Move.SavedRequestToStartSprinting
      = true ∧
    (((World.mk (B := Unit)
          ⟨some (CharacterMovementObject.TPS
            ⟨⟨none, true, F32.ofDecimal 500 0, none⟩, F32.ofDecimal 14 1, F32.ofDecimal 5 1,
              true, false⟩)⟩
          ⟨(), false, false⟩).capture (fun b _ => b)).steps engineFlags (fun s _ => s)
        [ComponentCall.StopSprinting, ComponentCall.StartAimDownSights,
          ComponentCall.UpdateFromCompressedFlags 0x20]).Character.CharacterMovement
      = some (CharacterMovementObject.TPS
          ⟨⟨none, true, F32.ofDecimal 500 0, none⟩, F32.ofDecimal 14 1, F32.ofDecimal 5 1,
            false, true⟩) :=
  ⟨(C6_snapshot_capture engineFlags (fun s _ => s) (fun b _ => b)
      (World.mk (B := Unit)
        ⟨some (CharacterMovementObject.TPS
          ⟨⟨none, true, F32.ofDecimal 500 0, none⟩, F32.ofDecimal 14 1, F32.ofDecimal 5 1,
            true, false⟩)⟩
        ⟨(), false, false⟩)
      ⟨⟨none, true, F32.ofDecimal 500 0, none⟩, F32.ofDecimal 14 1, F32.ofDecimal 5 1,
        true, false⟩
      rfl
      [ComponentCall.StopSprinting, ComponentCall.StartAimDownSights,
        ComponentCall.UpdateFromCompressedFlags 0x20]).2.2.2.1,
   by decide⟩

theorem single_bit_testBit {x : Nat} (hx : x ∈ [1, 2, 4, 8, 16, 32, 64, 128]) (i : Nat)
    (h : 2 ^ i ≠ x) : x.testBit i = false := by
  have hpow : ∃ k, x = 2 ^ k := by
    simp only [List.mem_cons, List.mem_singleton, List.not_mem_nil, or_false] at hx
    rcases hx with rfl | rfl | rfl | rfl | rfl | rfl | rfl | rfl
    exacts [⟨0, rfl⟩, ⟨1, rfl⟩, ⟨2, rfl⟩, ⟨3, rfl⟩, ⟨4, rfl⟩, ⟨5, rfl⟩, ⟨6, rfl⟩, ⟨7, rfl⟩]
  obtain ⟨k, rfl⟩ := hpow
  rw [Nat.testBit_two_pow]
  simp only [decide_eq_false_iff_not]
  rintro rfl
  exact h rfl

/-- C7. Encoding only adds the two custom bits: for every byte `b` returned by
the base encoder and every saved sprint and ADS flag, `GetCompressedFlags`
returns `b OR (FLAG_Custom_0 if sprint) OR (FLAG_Custom_1 if ads)`; every bit
position other than the two custom ones holds what it holds in `b`; and when
`b` is zero, sprint is saved and ADS is not, the byte is exactly
`FLAG_Custom_0` and `UpdateFromCompressedFlags` reads it back as sprint set,
ADS clear. -/
theorem C7_encode_adds_custom_bits {B : Type} (K : CompressedFlags) (hK : K.Valid)
    (SuperGetCompressedFlags : B → Nat) (m : FGDSavedMove B)
    (hb : SuperGetCompressedFlags m.Super < 256) :
    m.GetCompressedFlags K SuperGetCompressedFlags =
      SuperGetCompressedFlags m.Super
        ||| (if m.SavedRequestToStartSprinting then K.FLAG_Custom_0 else 0)
        ||| (if m.SavedRequestToStartADS then K.FLAG_Custom_1 else 0) ∧
    (∀ i, 2 ^ i ≠ K.FLAG_Custom_0 → 2 ^ i ≠ K.FLAG_Custom_1 →
      (m.GetCompressedFlags K SuperGetCompressedFlags).testBit i
        = (SuperGetCompressedFlags m.Super).testBit i) ∧
    (SuperGetCompressedFlags m.Super = 0 → m.SavedRequestToStartSprinting = true →
      m.SavedRequestToStartADS = false →
      m.GetCompressedFlags K SuperGetCompressedFlags = K.FLAG_Custom_0 ∧
      ∀ (SuperUpdate : UCharacterMovementComponent → Nat → UCharacterMovementComponent)
        (c : UTPSCharacterMovementComponent),
        (c.UpdateFromCompressedFlags K SuperUpdate
          (m.GetCompressedFlags K SuperGetCompressedFlags)).RequestToStartSprinting = true ∧
        (c.UpdateFromCompressedFlags K SuperUpdate
          (m.GetCompressedFlags K SuperGetCompressedFlags)).RequestToStartADS = false) := by
  obtain ⟨n0, n1, l0, l1, hd⟩ := hK.facts
  have heq := FGDSavedMove.GetCompressedFlags_eq_or K SuperGetCompressedFlags m hb l0 l1
  refine ⟨heq, ?_, ?_⟩
  · intro i h0 h1
    have t0 := single_bit_testBit hK.1 i h0
    have t1 := single_bit_testBit hK.2.1 i h1
    rw [heq]
    cases m.SavedRequestToStartSprinting <;> cases m.SavedRequestToStartADS <;>
      simp [t0, t1]
  · intro hz hs ha
    have hval : m.GetCompressedFlags K SuperGetCompressedFlags = K.FLAG_Custom_0 := by
      rw [heq, hz, hs, ha]
      simp
    refine ⟨hval, ?_⟩
    intro SuperUpdate c
    rw [hval]
    unfold UTPSCharacterMovementComponent.UpdateFromCompressedFlags
    constructor
    · show ((K.FLAG_Custom_0 &&& K.FLAG_Custom_0) != 0) = true
      simp [n0]
    · show ((K.FLAG_Custom_0 &&& K.FLAG_Custom_1) != 0) = false
      simp [hd]

/-- Witness for C7: the engine's enumerator values and the base byte `3`
(both framework bits set) with both flags saved give `0x33`. -/
theorem C7_encode_adds_custom_bits_witness :
    engineFlags.Valid ∧
    (FGDSavedMove.mk 3 true true).GetCompressedFlags engineFlags (fun b => b) = 0x33 :=
  ⟨by decide,
   (C7_encode_adds_custom_bits engineFlags (by decide) (fun b => b)
      (FGDSavedMove.mk 3 true true) (by decide)).1⟩

/-- C8. `Clear` leaves both saved flags false whatever they were, performs the
base clear on the base part, and the cleared move encodes to the byte of the
base encoder with no custom bit added. -/
theorem C8_clear_resets_flags {B : Type} (K : CompressedFlags) (SuperClear : B → B)
    (SuperGetCompressedFlags : B → Nat) (m : FGDSavedMove B) :
    (m.Clear SuperClear).SavedRequestToStartSprinting = false ∧
    (m.Clear SuperClear).SavedRequestToStartADS = false ∧
    (m.Clear SuperClear).Super = SuperClear m.Super ∧
    (m.Clear SuperClear).GetCompressedFlags K SuperGetCompressedFlags
      = SuperGetCompressedFlags (SuperClear m.Super) % 256 := by
  refine ⟨rfl, rfl, rfl, ?_⟩
  simp [FGDSavedMove.GetCompressedFlags, FGDSavedMove.Clear]

/-- C9. Each movement-intent call sets exactly one flag: `StartSprinting` and
`StopSprinting` set `RequestToStartSprinting` to true and false,
`StartAimDownSights` and `StopAimDownSights` set `RequestToStartADS` to true
and false, and each leaves the other flag, both multipliers and the base-class
part as they were, for every prior state. -/
theorem C9_mutators_set_one_flag (c : UTPSCharacterMovementComponent) :
    (c.StartSprinting.RequestToStartSprinting = true ∧
      c.StartSprinting.RequestToStartADS = c.RequestToStartADS ∧
      c.StartSprinting.SprintSpeedMultiplier = c.SprintSpeedMultiplier ∧
      c.StartSprinting.ADSSpeedMultiplier = c.ADSSpeedMultiplier ∧
      c.StartSprinting.Super = c.Super) ∧
    (c.StopSprinting.RequestToStartSprinting = false ∧
      c.StopSprinting.RequestToStartADS = c.RequestToStartADS ∧
      c.StopSprinting.SprintSpeedMultiplier = c.SprintSpeedMultiplier ∧
      c.StopSprinting.ADSSpeedMultiplier = c.ADSSpeedMultiplier ∧
      c.StopSprinting.Super = c.Super) ∧
    (c.StartAimDownSights.RequestToStartADS = true ∧
      c.StartAimDownSights.RequestToStartSprinting = c.RequestToStartSprinting ∧
      c.StartAimDownSights.SprintSpeedMultiplier = c.SprintSpeedMultiplier ∧
      c.StartAimDownSights.ADSSpeedMultiplier = c.ADSSpeedMultiplier ∧
      c.StartAimDownSights.Super = c.Super) ∧
    (c.StopAimDownSights.RequestToStartADS = false ∧
      c.StopAimDownSights.RequestToStartSprinting = c.RequestToStartSprinting ∧
      c.StopAimDownSights.SprintSpeedMultiplier = c.SprintSpeedMultiplier ∧
      c.StopAimDownSights.ADSSpeedMultiplier = c.ADSSpeedMultiplier ∧
      c.StopAimDownSights.Super = c.Super) :=
  ⟨⟨rfl, rfl, rfl, rfl, rfl⟩, ⟨rfl, rfl, rfl, rfl, rfl⟩, ⟨rfl, rfl, rfl, rfl, rfl⟩,
    ⟨rfl, rfl, rfl, rfl, rfl⟩⟩

theorem Heap.write_append_last (h : Heap) (o : FNetworkPredictionData_Client_Character)
    (f : FNetworkPredictionData_Client_Character → FNetworkPredictionData_Client_Character) :
    Heap.write (h ++ [o]) h.length f = h ++ [f o] := by
  unfold Heap.write
  simp

/-- With a valid pawn owner and an existing buffer, `GetPredictionData_Client`
returns the existing pointer and changes neither the heap nor the component. -/
theorem UTPSCharacterMovementComponent.GetPredictionData_Client_existing
    (SuperCtor : UCharacterMovementComponent → FNetworkPredictionData_Client_Character)
    (h : Heap) (c : UTPSCharacterMovementComponent) (p : Nat)
    (hOwner : c.Super.PawnOwner = true) (hSome : c.Super.ClientPredictionData = some p) :
    c.GetPredictionData_Client SuperCtor h = some (h, c, p) := by
  unfold UTPSCharacterMovementComponent.GetPredictionData_Client
  simp [hOwner, hSome]

theorem UTPSCharacterMovementComponent.GetPredictionData_Client_times_existing
    (SuperCtor : UCharacterMovementComponent → FNetworkPredictionData_Client_Character)
    (h : Heap) (c : UTPSCharacterMovementComponent) (p : Nat)
    (hOwner : c.Super.PawnOwner = true) (hSome : c.Super.ClientPredictionData = some p)
    (n : Nat) :
    GetPredictionData_Client_times SuperCtor n h c = some (h, c, List.replicate n p) := by
  induction n with
  | zero => rfl
  | succ k ih =>
    unfold UTPSCharacterMovementComponent.GetPredictionData_Client_times
    rw [GetPredictionData_Client_existing SuperCtor h c p hOwner hSome]
    simp only [ih]
    rfl

/-- C10. The prediction buffer is created lazily and once: with a valid pawn
owner and no buffer yet, the first `GetPredictionData_Client` succeeds, creates
one new object at a fresh address behind the existing ones, with
`MaxSmoothNetUpdateDist = 92.f` and `NoSmoothNetUpdateDist = 140.f`, stores its
address in the component and returns it; every later call, any number of them,
returns that same address and leaves the heap (no new object, the two distances
as they are) and the component unchanged. -/
theorem C10_prediction_data_created_once
    (SuperCtor : UCharacterMovementComponent → FNetworkPredictionData_Client_Character)
    (h : Heap) (c : UTPSCharacterMovementComponent)
    (hOwner : c.Super.PawnOwner = true) (hNone : c.Super.ClientPredictionData = none) :
    c.GetPredictionData_Client SuperCtor h =
      some (h ++ [⟨F32.ofDecimal 92 0, F32.ofDecimal 140 0⟩],
        { c with Super := { c.Super with ClientPredictionData := some h.length } },
        h.length) ∧
    (h ++ [(⟨F32.ofDecimal 92 0, F32.ofDecimal 140 0⟩ :
        FNetworkPredictionData_Client_Character)])[h.length]?
      = some ⟨F32.ofDecimal 92 0, F32.ofDecimal 140 0⟩ ∧
    (F32.ofDecimal 92 0).bits = 0x42B80000 ∧ (F32.ofDecimal 140 0).bits = 0x430C0000 ∧
    ∀ n : Nat,
      UTPSCharacterMovementComponent.GetPredictionData_Client_times SuperCtor n
          (h ++ [⟨F32.ofDecimal 92 0, F32.ofDecimal 140 0⟩])
          { c with Super := { c.Super with ClientPredictionData := some h.length } }
        = some (h ++ [⟨F32.ofDecimal 92 0, F32.ofDecimal 140 0⟩],
            { c with Super := { c.Super with ClientPredictionData := some h.length } },
            List.replicate n h.length) := by
  refine ⟨?_, by simp, by decide, by decide, ?_⟩
  · unfold UTPSCharacterMovementComponent.GetPredictionData_Client
    simp only [hOwner, hNone, Bool.not_true, Bool.false_eq_true, if_false]
    rw [Heap.write_append_last, Heap.write_append_last]
  · intro n
    exact UTPSCharacterMovementComponent.GetPredictionData_Client_times_existing SuperCtor
      (h ++ [⟨F32.ofDecimal 92 0, F32.ofDecimal 140 0⟩])
      { c with Super := { c.Super with ClientPredictionData := some h.length } }
      h.length hOwner rfl n

/-- Witness for C10: an empty heap, a component with a pawn owner and no
buffer, an engine constructor that starts the two distances at 84 and 128. -/
theorem C10_prediction_data_created_once_witness :
    (UTPSCharacterMovementComponent.mk ⟨none, true, F32.ofDecimal 500 0, none⟩
        (F32.ofDecimal 14 1) (F32.ofDecimal 5 1) false false).GetPredictionData_Client
        (fun _ => ⟨F32.ofDecimal 84 0, F32.ofDecimal 128 0⟩) []
      = some ([⟨F32.ofDecimal 92 0, F32.ofDecimal 140 0⟩],
          UTPSCharacterMovementComponent.mk ⟨none, true, F32.ofDecimal 500 0, some 0⟩
            (F32.ofDecimal 14 1) (F32.ofDecimal 5 1) false false,
          0) :=
  (C10_prediction_data_created_once (fun _ => ⟨F32.ofDecimal 84 0, F32.ofDecimal 128 0⟩) []
    (UTPSCharacterMovementComponent.mk ⟨none, true, F32.ofDecimal 500 0, none⟩
      (F32.ofDecimal 14 1) (F32.ofDecimal 5 1) false false) rfl rfl).1

/-- The two embeddings of `GetPredictionData_Client` agree: the call has no
result exactly when the run stops at the check. -/
theorem UTPSCharacterMovementComponent.GetPredictionData_Client_eq_run
    (SuperCtor : UCharacterMovementComponent → FNetworkPredictionData_Client_Character)
    (h : Heap) (c : UTPSCharacterMovementComponent) :
    c.GetPredictionData_Client SuperCtor h =
      match c.GetPredictionData_Client_run SuperCtor h with
      | Except.ok r => some r
      | Except.error _ => none := by
  unfold UTPSCharacterMovementComponent.GetPredictionData_Client
    UTPSCharacterMovementComponent.GetPredictionData_Client_run
  cases c.Super.PawnOwner <;> cases c.Super.ClientPredictionData <;> rfl

/-- C11. `GetPredictionData_Client` fails exactly when the pawn owner is
missing. With `PawnOwner` null the call stops at the check, with the heap and
the component as they were (no buffer created, none stored, none returned),
whether or not the component already has a buffer; with a valid `PawnOwner`
the call returns a pointer. -/
theorem C11_fails_iff_no_pawn_owner
    (SuperCtor : UCharacterMovementComponent → FNetworkPredictionData_Client_Character)
    (h : Heap) (c : UTPSCharacterMovementComponent) :
    (c.GetPredictionData_Client SuperCtor h = none ↔ c.Super.PawnOwner = false) ∧
    (c.Super.PawnOwner = false →
      c.GetPredictionData_Client_run SuperCtor h = Except.error (h, c)) ∧
    (c.Super.PawnOwner = true →
      ∃ h1 c1 p, c.GetPredictionData_Client SuperCtor h = some (h1, c1, p) ∧
        c.GetPredictionData_Client_run SuperCtor h = Except.ok (h1, c1, p)) := by
  refine ⟨?_, ?_, ?_⟩
  · unfold UTPSCharacterMovementComponent.GetPredictionData_Client
    cases c.Super.PawnOwner <;> cases c.Super.ClientPredictionData <;> simp
  · intro hNull
    unfold UTPSCharacterMovementComponent.GetPredictionData_Client_run
    simp [hNull]
  · intro hValid
    unfold UTPSCharacterMovementComponent.GetPredictionData_Client
      UTPSCharacterMovementComponent.GetPredictionData_Client_run
    simp only [hValid, Bool.not_true, Bool.false_eq_true, if_false]
    cases c.Super.ClientPredictionData with
    | none => exact ⟨_, _, _, rfl, rfl⟩
    | some p => exact ⟨h, c, p, rfl, rfl⟩

/-- Example for C11: no pawn owner while a buffer already exists at address 0.
The call has no result, and the run stops with the heap and the component
untouched. -/
theorem C11_fails_iff_no_pawn_owner_witness :
    (UTPSCharacterMovementComponent.mk ⟨none, false, F32.ofDecimal 500 0, some 0⟩
        (F32.ofDecimal 14 1) (F32.ofDecimal 5 1) false false).GetPredictionData_Client
        (fun _ => ⟨F32.ofDecimal 84 0, F32.ofDecimal 128 0⟩)
        [⟨F32.ofDecimal 92 0, F32.ofDecimal 140 0⟩] = none ∧
    (UTPSCharacterMovementComponent.mk ⟨none, false, F32.ofDecimal 500 0, some 0⟩
        (F32.ofDecimal 14 1) (F32.ofDecimal 5 1) false false).GetPredictionData_Client_run
        (fun _ => ⟨F32.ofDecimal 84 0, F32.ofDecimal 128 0⟩)
        [⟨F32.ofDecimal 92 0, F32.ofDecimal 140 0⟩]
      = Except.error ([⟨F32.ofDecimal 92 0, F32.ofDecimal 140 0⟩],
          UTPSCharacterMovementComponent.mk ⟨none, false, F32.ofDecimal 500 0, some 0⟩
            (F32.ofDecimal 14 1) (F32.ofDecimal 5 1) false false) :=
  ⟨(C11_fails_iff_no_pawn_owner (fun _ => ⟨F32.ofDecimal 84 0, F32.ofDecimal 128 0⟩)
      [⟨F32.ofDecimal 92 0, F32.ofDecimal 140 0⟩]
      (UTPSCharacterMovementComponent.mk ⟨none, false, F32.ofDecimal 500 0, some 0⟩
        (F32.ofDecimal 14 1) (F32.ofDecimal 5 1) false false)).1.mpr rfl,
   (C11_fails_iff_no_pawn_owner (fun _ => ⟨F32.ofDecimal 84 0, F32.ofDecimal 128 0⟩)
      [⟨F32.ofDecimal 92 0, F32.ofDecimal 140 0⟩]
      (UTPSCharacterMovementComponent.mk ⟨none, false, F32.ofDecimal 500 0, some 0⟩
        (F32.ofDecimal 14 1) (F32.ofDecimal 5 1) false false)).2.1 rfl⟩

/-- C12. Without an `ATPSCharacter` owner (`GetOwner()` is null, or an actor of
another class) `GetMaxSpeed` returns a value, namely what the base class's
`GetMaxSpeed` returns, for every value of the two multipliers and of the two
request flags: no multiplier is applied and no owner is asked whether it is
alive. -/
theorem C12_no_owner_base_speed (Super : UCharacterMovementComponent)
    (hOwner : Super.GetOwner = none ∨ Super.GetOwner = some AActor.Other)
    (SprintSpeedMultiplier ADSSpeedMultiplier : F32)
    (RequestToStartSprinting RequestToStartADS : Bool) :
    (UTPSCharacterMovementComponent.mk Super SprintSpeedMultiplier ADSSpeedMultiplier
        RequestToStartSprinting RequestToStartADS).GetMaxSpeed = Super.GetMaxSpeed := by
  unfold UTPSCharacterMovementComponent.GetMaxSpeed
  rcases hOwner with h | h <;> simp only [h, Cast_ATPSCharacter]

/-- Witness for C12: no owner, base speed 500, default multipliers, both flags
set: the result is 500. -/
theorem C12_no_owner_base_speed_witness :
    (UTPSCharacterMovementComponent.mk ⟨none, true, F32.ofDecimal 500 0, none⟩
        (F32.ofDecimal 14 1) (F32.ofDecimal 5 1) true true).GetMaxSpeed = F32.ofDecimal 500 0 :=
  C12_no_owner_base_speed ⟨none, true, F32.ofDecimal 500 0, none⟩ (Or.inl rfl)
    (F32.ofDecimal 14 1) (F32.ofDecimal 5 1) true true

/-- C13. A freshly constructed component: both request flags are false, the
multipliers are `1.4f` and `0.5f` whatever the storage held before, the
base-class part is as allocated, and with an owner that is an alive
`ATPSCharacter` `GetMaxSpeed` returns the base max speed. -/
theorem C13_fresh_component (Super : UCharacterMovementComponent) (s0 a0 : F32) :
    (UTPSCharacterMovementComponent.allocated Super s0 a0).ctor.RequestToStartSprinting = false ∧
    (UTPSCharacterMovementComponent.allocated Super s0 a0).ctor.RequestToStartADS = false ∧
    (UTPSCharacterMovementComponent.allocated Super s0 a0).ctor.SprintSpeedMultiplier
      = F32.ofDecimal 14 1 ∧
    (UTPSCharacterMovementComponent.allocated Super s0 a0).ctor.ADSSpeedMultiplier
      = F32.ofDecimal 5 1 ∧
    (UTPSCharacterMovementComponent.allocated Super s0 a0).ctor.Super = Super ∧
    (∀ Owner : ATPSCharacter, Cast_ATPSCharacter Super.GetOwner = some Owner →
      Owner.IsAlive = true →
      (UTPSCharacterMovementComponent.allocated Super s0 a0).ctor.GetMaxSpeed
        = Super.GetMaxSpeed) := by
  refine ⟨rfl, rfl, rfl, rfl, rfl, ?_⟩
  intro Owner hOwner hAlive
  unfold UTPSCharacterMovementComponent.GetMaxSpeed
  have hSuper : (UTPSCharacterMovementComponent.allocated Super s0 a0).ctor.Super = Super := rfl
  have hSprint :
      (UTPSCharacterMovementComponent.allocated Super s0 a0).ctor.RequestToStartSprinting
        = false := rfl
  have hAds :
      (UTPSCharacterMovementComponent.allocated Super s0 a0).ctor.RequestToStartADS
        = false := rfl
  rw [hSuper, hOwner]
  simp [hAlive, hSprint, hAds]

/-- Example for C13: storage that held other multipliers, an owner with health
100 and base speed 500: after construction `GetMaxSpeed` is 500. -/
theorem C13_fresh_component_witness :
    (UTPSCharacterMovementComponent.allocated
        ⟨some (AActor.TPSCharacter ⟨some ⟨⟨F32.ofDecimal 100 0, F32.ofDecimal 100 0⟩⟩⟩), true,
          F32.ofDecimal 500 0, none⟩
        (F32.ofDecimal 3 0) (F32.ofDecimal 7 0)).ctor.GetMaxSpeed = F32.ofDecimal 500 0 :=
  (C13_fresh_component
    ⟨some (AActor.TPSCharacter ⟨some ⟨⟨F32.ofDecimal 100 0, F32.ofDecimal 100 0⟩⟩⟩), true,
      F32.ofDecimal 500 0, none⟩
    (F32.ofDecimal 3 0) (F32.ofDecimal 7 0)).2.2.2.2.2
    ⟨some ⟨⟨F32.ofDecimal 100 0, F32.ofDecimal 100 0⟩⟩⟩ rfl (by decide)

end TPS
